import Mathlib

/-!
Shallow embedding of the XMLHttpRequest auth-interception module
(`src/index.ts`): request recording, whitelist filtering, response
classification, the single-flight login coordinator and the request
replayer, together with theorems settling the specification claims.

External primitives (the platform's `JSON.parse`, `Number`, the native
`open`/`setRequestHeader`/`send`, and the credential store) are modelled
as parameters or as small total functions documented at their definition.
-/

namespace Intercept

/-- Model of the JavaScript values a parsed JSON body field can hold.
`undefv` stands for `undefined` (a missing property), `obj` for any
object value. -/
inductive JsVal where
  | num (n : Int)
  | str (s : String)
  | boolv (b : Bool)
  | nullv
  | undefv
  | obj
deriving DecidableEq, Repr

/-- Model of the platform's `Number(x)` coercion on `JsVal`; `none` stands
for `NaN`. Strings are approximated by integer-literal parsing (a
non-numeric string coerces to `NaN`). -/
def jsNumber : JsVal → Option Int
  | .num n => some n
  | .str s => s.toInt?
  | .boolv b => some (if b then 1 else 0)
  | .nullv => some 0
  | .undefv => none
  | .obj => none

/-- A parsed JSON object: its fields in insertion order. -/
abbrev JsObj := List (String × JsVal)

/-- JavaScript property access `o.k`: `undefined` when the field is absent. -/
def getField (o : JsObj) (k : String) : JsVal :=
  (o.lookup k).getD .undefv

/-- `runtimeConfig.interceptStatusCodes.includes(Number(response.code))`
(src/index.ts line 179): `NaN` (modelled by `none`) is a member of no
integer list. -/
def codeIntercepted (codes : List Int) (v : JsVal) : Bool :=
  match jsNumber v with
  | some n => codes.contains n
  | none => false

/-- The parameters of an `open` call (src/index.ts `OpenParams`); the three
optional ones may be `undefined`. -/
structure OpenParams where
  method : String
  url : String
  async : Option Bool
  username : Option String
  password : Option String
deriving DecidableEq, Repr

/-- A whitelist entry (src/index.ts `WhiteList`). -/
structure WhiteListItem where
  method : String
  url : String
deriving DecidableEq, Repr

/-- The configuration fields the intercept logic reads (src/index.ts
`Config`); `onConfirm` is the external reauthentication capability and is
represented by the emitted `Action.invokeOnConfirm` instead of a function
field. `retryCount` is the maximum retry count. -/
structure Config where
  retryCount : Nat
  interceptStatusCodes : List Int
  whiteList : List WhiteListItem
deriving DecidableEq, Repr

/-- JavaScript `s.toLowerCase()` on the ASCII method strings the module
compares: lower-case every character. -/
def jsToLower (s : String) : String := ⟨s.data.map Char.toLower⟩

/-- `isInWhiteList` (src/index.ts lines 64-68): some entry whose stored
`method` equals the lowercased request method and whose `url` equals the
request url. -/
def isInWhiteList (cfg : Config) (method : String) (url : String) : Bool :=
  cfg.whiteList.any (fun item => item.method == jsToLower method && item.url == url)

/-- The whitelist match as the spec words it (§4.2): case-insensitive
comparison on the method (both sides lowercased), exact equality on the url. -/
def specWhitelistMatch (cfg : Config) (method : String) (url : String) : Bool :=
  cfg.whiteList.any (fun item => jsToLower item.method == jsToLower method && item.url == url)

/-- The observable fields of a completed response that the classifier reads. -/
structure XhrResponse where
  contentTypeHeader : Option String
  responseText : String
deriving DecidableEq, Repr

/-- The external environment: the platform JSON parser and the credential
store. `parseJson` models the outcome of `JSON.parse(responseText)`
followed by property access on the result: `none` when the parse throws
(or the parsed value supports no property access, e.g. `null`). `token`
and `tokenNameRaw` model `storeService.getToken()` / `getTokenName()`. -/
structure Env where
  parseJson : String → Option JsObj
  token : Option String
  tokenNameRaw : Option String

/-- `storeService.getToken() ?? ""` (src/index.ts lines 115, 223). -/
def Env.tokenVal (e : Env) : String := e.token.getD ""

/-- `storeService.getTokenName() || "x-token-id"` (src/index.ts lines 116,
224): a falsy name (absent or empty) falls back to the default. -/
def Env.tokenName (e : Env) : String :=
  match e.tokenNameRaw with
  | some s => if s == "" then "x-token-id" else s
  | none => "x-token-id"

/-- `h.split(";")[0]`: the text before the first `;`, the whole string when
no `;` occurs. -/
def beforeSemi (s : String) : String := ⟨s.data.takeWhile (fun c => c != ';')⟩

/-- `this.getResponseHeader("content-type")?.split(";")[0] ===
"application/json"` (src/index.ts lines 162-164): an absent header compares
unequal; otherwise the text before the first `;`, with no trimming and no
case folding, must equal `application/json` exactly. -/
def isJsonResponse (r : XhrResponse) : Bool :=
  match r.contentTypeHeader with
  | none => false
  | some h => beforeSemi h == "application/json"

/-- The three-way classification of a completed response performed by
`handleInterceptResponse` (src/index.ts lines 161-190): whitelisted
requests bypass; otherwise a JSON response whose body parses and whose
`code` coerces to a member of `interceptStatusCodes` is an auth failure;
everything else (including a body whose parse throws, which the source
catches and logs) passes through. -/
inductive Outcome where
  | bypass
  | authFailure
  | passThrough
deriving DecidableEq, Repr

def classify (env : Env) (cfg : Config) (op : OpenParams) (r : XhrResponse) : Outcome :=
  if isInWhiteList cfg op.method op.url then .bypass
  else if isJsonResponse r then
    match env.parseJson r.responseText with
    | some body =>
        if codeIntercepted cfg.interceptStatusCodes (getField body "code") then .authFailure
        else .passThrough
    | none => .passThrough
  else .passThrough

/-- The shared coordinator state (src/index.ts lines 55-56): whether
`loginPromise` is non-null, and the length of `pendingAuthPromises`. -/
structure InterceptState where
  loginActive : Bool
  waiters : Nat
deriving DecidableEq, Repr

/-- The externally visible actions the intercept logic performs, in program
order: invoking the `onConfirm` reauthentication capability, invoking the
caller's completion callback (with the original event or with a replay's
completion event), and calls to the native `open`/`setRequestHeader`/`send`
primitives. `resolveWaiterTrue` is a waiter's `resolve(true)`. -/
inductive Action where
  | invokeOnConfirm
  | callbackOriginal
  | callbackReplay
  | openNative (method url : String) (asyncArg : Option Bool)
      (username pwd : Option String)
  | setHeaderNative (name value : String)
  | sendNative
  | resolveWaiterTrue
deriving DecidableEq, Repr

/-- The synchronous coordinator step of `handleUnauthorizedResponse`
(src/index.ts lines 84-100, 142): if no login is active, start one (the
`Promise` executor invokes `onConfirm()` synchronously) — otherwise start
nothing; in both cases push this request's retry promise onto
`pendingAuthPromises`. -/
def handleUnauthorizedStep (s : InterceptState) : InterceptState × List Action :=
  let started :=
    if s.loginActive then (s, ([] : List Action))
    else ({ s with loginActive := true }, [Action.invokeOnConfirm])
  ({ started.1 with waiters := started.1.waiters + 1 }, started.2)

/-- `handleInterceptResponse` (src/index.ts lines 153-190) as a state
transformer: a whitelisted request first resets the shared state
(lines 170-173); then the auth-failure path defers to
`handleUnauthorizedStep` and returns without invoking the caller's
callback, while every other path (bypass, non-JSON, parse failure,
non-matching code) ends in `fun?.call(this, ev)` with the original
event (line 189). -/
def handleInterceptResponse (env : Env) (cfg : Config) (op : OpenParams)
    (r : XhrResponse) (s : InterceptState) : InterceptState × List Action :=
  let s1 := if isInWhiteList cfg op.method op.url then ⟨false, 0⟩ else s
  match classify env cfg op r with
  | .authFailure => handleUnauthorizedStep s1
  | _ => (s1, [Action.callbackOriginal])

/-- The per-request mutable fields the wrappers maintain on an
`XMLHttpRequestPlus` instance: `openParams`, `retryCount` (absent until
first written — JavaScript `undefined`), and the `__headers` record. -/
structure RequestCtx where
  openParams : OpenParams
  retryCount : Option Nat
  headers : List (String × String)
deriving DecidableEq, Repr

/-- Assignment into a JavaScript record: an existing key keeps its position
and takes the new value (last write per name wins), a new key is appended. -/
def recordSet (hs : List (String × String)) (k v : String) : List (String × String) :=
  if hs.any (fun p => p.1 == k) then
    hs.map (fun p => if p.1 == k then (k, v) else p)
  else hs ++ [(k, v)]

/-- The patched `setRequestHeader` (src/index.ts lines 218-230): substitute
the current token when the header name equals the configured token header
name, record the (substituted) pair into `__headers`, and delegate to the
native setter with the (substituted) pair. -/
def setRequestHeaderWrapper (env : Env) (ctx : RequestCtx) (name value : String) :
    RequestCtx × Action :=
  let v := if name == env.tokenName then env.tokenVal else value
  ({ ctx with headers := recordSet ctx.headers name v }, .setHeaderNative name v)

/-- The patched `open` (src/index.ts lines 199-215): store the parameters
verbatim on the instance and delegate to the native `open` with the
caller's exact arguments (the possibly-`undefined` async flag is passed
through by `async!`). -/
def openWrapper (ctx : RequestCtx) (method url : String) (asyncArg : Option Bool)
    (username pwd : Option String) : RequestCtx × Action :=
  ({ ctx with openParams := ⟨method, url, asyncArg, username, pwd⟩ },
   .openNative method url asyncArg username pwd)

/-- JavaScript `!!x` on a possibly-`undefined` boolean. -/
def jsBool (a : Option Bool) : Bool := a.getD false

/-- The effective async mode of a native `open` call as this module issues
one: both the patched `open` (src/index.ts line 214, `async!` passed
through explicitly) and the replay's `open` supply all five arguments, so
the native primitive's five-argument overload is selected and its required
WebIDL boolean coerces an `undefined` argument by ToBoolean to `false`
(external primitive semantics of `XMLHttpRequest.open`). -/
def effectiveAsync (a : Option Bool) : Bool := a.getD false

/-- JavaScript `retryCount < runtimeConfig.retryCount` where `retryCount`
may be `undefined` (src/index.ts line 127): any comparison against
`undefined` is false. -/
def jsLtRetry (rc : Option Nat) (limit : Nat) : Bool :=
  match rc with
  | some n => decide (n < limit)
  | none => false

/-- JavaScript `retryCount ? retryCount + 1 : 1` (src/index.ts line 130):
`undefined` and `0` are falsy. -/
def bumpRetry (rc : Option Nat) : Nat :=
  match rc with
  | some 0 => 1
  | some n => n + 1
  | none => 1

/-- The arguments the replay passes to `open` (src/index.ts lines 106-112):
the stored parameters, with the async flag coerced by `!!`. -/
def replayOpenArgs (p : OpenParams) : OpenParams :=
  ⟨p.method, p.url, some (jsBool p.async), p.username, p.password⟩

/-- The replay's header loop (src/index.ts lines 117-123): for each entry of
the `Object.entries(this.__headers)` snapshot, call the (patched)
`setRequestHeader` with the stored value, except the token header, which
gets the token read fresh at replay time. -/
def applyHeaders (env : Env) (ctx : RequestCtx) :
    List (String × String) → RequestCtx × List Action
  | [] => (ctx, [])
  | (k, v) :: rest =>
      let step := setRequestHeaderWrapper env ctx k
        (if k == env.tokenName then env.tokenVal else v)
      let tail := applyHeaders env step.1 rest
      (tail.1, step.2 :: tail.2)

/-- The waiter continuation chained on the login promise (src/index.ts
lines 104-137): re-open with the stored parameters (through the patched
`open`), reapply every recorded header (through the patched
`setRequestHeader`), then the retry gate: when
`retryCount < runtimeConfig.retryCount` return early — no send, no
callback rebinding (the third component is `false`); otherwise bump
`retryCount` and call `send` (the third component is `true`, and the
completion callback is rebound; see `replayCompletionActs`). -/
def replayContinuation (env : Env) (cfg : Config) (ctx : RequestCtx) :
    RequestCtx × List Action × Bool :=
  let ra := replayOpenArgs ctx.openParams
  let opened := openWrapper ctx ra.method ra.url ra.async ra.username ra.password
  let applied := applyHeaders env opened.1 opened.1.headers
  if jsLtRetry applied.1.retryCount cfg.retryCount then
    (applied.1, opened.2 :: applied.2, false)
  else
    ({ applied.1 with retryCount := some (bumpRetry applied.1.retryCount) },
     (opened.2 :: applied.2) ++ [Action.sendNative], true)

/-- The actions a single waiter continuation performs when released. -/
def replayActs (env : Env) (cfg : Config) (ctx : RequestCtx) : List Action :=
  (replayContinuation env cfg ctx).2.1

/-- How the `onConfirm` future can settle. -/
inductive LoginOutcome where
  | success
  | failure
deriving DecidableEq, Repr

/-- Settlement of the `onConfirm()` future (src/index.ts lines 87-98). On
success the handler resolves the login promise with `true` and resets the
shared state; the waiter continuations, registered with `.then` on the
login promise, then run in registration order. On failure the handler
only resets the shared state; the login promise is never resolved, so no
waiter continuation ever runs and no waiter promise is ever resolved. -/
def settleLogin (env : Env) (cfg : Config) (o : LoginOutcome)
    (waiterCtxs : List RequestCtx) : InterceptState × List Action :=
  match o with
  | .success => (⟨false, 0⟩, (waiterCtxs.map (replayActs env cfg)).flatten)
  | .failure => (⟨false, 0⟩, [])

/-- Sequential processing of a list of completed requests' classification
steps (each completion handler runs to completion before the next, per the
single-threaded event-loop model). -/
def runResponses (env : Env) (cfg : Config) (s : InterceptState) :
    List (OpenParams × XhrResponse) → InterceptState × List Action
  | [] => (s, [])
  | (op, r) :: rest =>
      let step := handleInterceptResponse env cfg op r s
      let tail := runResponses env cfg step.1 rest
      (tail.1, step.2 ++ tail.2)

/-- The fields of the request state an `onreadystatechange` invocation
observes (src/index.ts lines 240-244). -/
structure RscEvent where
  readyState : Nat
  status : Nat
  responseURL : String
deriving DecidableEq, Repr

/-- `flag` (src/index.ts lines 241-243): status 0 and not a `file:` URL
(an empty `responseURL` is falsy). -/
def rscFlag (e : RscEvent) : Bool :=
  e.status == 0 && !(e.responseURL != "" && e.responseURL.startsWith "file:")

/-- The wrapper installed over an assigned `onreadystatechange` handler
(src/index.ts lines 239-257) forwards an invocation to the (deferred)
interception handler iff `readyState === 4 && !flag`; every other
invocation is dropped without reaching the caller's handler. -/
def rscWrapperForwards (e : RscEvent) : Bool :=
  e.readyState == 4 && !(rscFlag e)

/-- Without interception the caller's `onreadystatechange` runs at every
ready-state event: the observed list of readyState values. -/
def callerObsOriginal (evs : List RscEvent) : List Nat :=
  evs.map (fun e => e.readyState)

/-- With interception installed, the caller's handler can run (deferred,
via `handleInterceptResponse`) only for the forwarded events: the list of
readyState values at which it can be invoked. -/
def callerObsWrapped (evs : List RscEvent) : List Nat :=
  (evs.filter rscWrapperForwards).map (fun e => e.readyState)

/-- How many times the interception handler runs for one request, given
whether an `onreadystatechange` / `onloadend` handler was assigned before
`send` (src/index.ts lines 233-275): the send wrapper installs an
intercepting wrapper only over a handler that is assigned
(`if (onreadystatechange)` / `if (onloadend)`); an unassigned handler slot
is left untouched, so no event on that slot can reach
`handleInterceptResponse`. -/
def interceptInvocations (hasRsc hasLoadEnd : Bool) (evs : List RscEvent)
    (loadEndFires : Bool) : Nat :=
  (if hasRsc then (evs.filter rscWrapperForwards).length else 0)
  + (if hasLoadEnd && loadEndFires then 1 else 0)

/-- Iterate the classification step `n` times (once per interception-handler
invocation for this request). -/
def runInterceptN (env : Env) (cfg : Config) (op : OpenParams) (r : XhrResponse)
    (s : InterceptState) : Nat → InterceptState × List Action
  | 0 => (s, [])
  | n + 1 =>
      let step := handleInterceptResponse env cfg op r s
      let tail := runInterceptN env cfg op r step.1 n
      (tail.1, step.2 ++ tail.2)

/-- The total effect of one request on the shared state: the classification
step runs once per interception-handler invocation. -/
def requestEffect (env : Env) (cfg : Config) (op : OpenParams) (r : XhrResponse)
    (hasRsc hasLoadEnd : Bool) (evs : List RscEvent) (loadEndFires : Bool)
    (s : InterceptState) : InterceptState × List Action :=
  runInterceptN env cfg op r s (interceptInvocations hasRsc hasLoadEnd evs loadEndFires)

/-- Which completion callback the intercepted request used (the `funName`
argument of `handleUnauthorizedResponse`, src/index.ts line 80). -/
inductive FunName where
  | onloadend
  | onreadystatechange
deriving DecidableEq, Repr

/-- The rebound handler of a sent replay (src/index.ts lines 134-137):
`this[funName] = function (ev) { fun?.call(this, ev); resolve(true) }` —
the caller's callback runs and the waiter's promise is resolved on every
invocation of the rebound handler (resolving an already-resolved promise
is a no-op, but the callback call is made each time). An `onloadend`
request's handler runs once, at the replay's single `loadend` event; an
`onreadystatechange` request's handler has no readyState filter and runs
at every ready-state transition the replayed request fires
(`replayEvents`), completion or not. -/
def replayCompletionActs (funName : FunName) (replayEvents : List RscEvent) :
    List Action :=
  match funName with
  | .onloadend => [Action.callbackReplay, Action.resolveWaiterTrue]
  | .onreadystatechange =>
      (replayEvents.map
        (fun _ => [Action.callbackReplay, Action.resolveWaiterTrue])).flatten

/-- The caller-visible trace of one intercepted request's whole lifecycle,
composed from the source's control flow: the synchronous classification
step (`handleInterceptResponse`); then, only on the auth-failure path and
only when the login settles successfully, this request's waiter
continuation (`replayContinuation`); then, only when the continuation
actually sent a replay, the rebound handler — once for an `onloadend`
request, once per ready-state transition of the replayed request
(`replayEvents`) for an `onreadystatechange` request. -/
def lifecycleActions (env : Env) (cfg : Config) (op : OpenParams) (r : XhrResponse)
    (ctx : RequestCtx) (s : InterceptState) (o : LoginOutcome)
    (funName : FunName) (replayEvents : List RscEvent) : List Action :=
  let step := handleInterceptResponse env cfg op r s
  match classify env cfg op r with
  | .authFailure =>
      match o with
      | .failure => step.2
      | .success =>
          let rep := replayContinuation env cfg ctx
          step.2 ++ rep.2.1
            ++ (if rep.2.2 then replayCompletionActs funName replayEvents else [])
  | _ => step.2

/-! ### Concrete instances used by the witnesses and counterexamples -/

/-- An environment whose parser recognizes only the body `"body401"`, as a
JSON object with `code: 401`; token store holds `"tok"`, default header name. -/
def envAuth : Env :=
  ⟨fun s => if s == "body401" then some [("code", JsVal.num 401)] else none,
   some "tok", none⟩

/-- The repository's own configuration (src/index.ts lines 279-289):
`retryCount 3`, intercept code 401, the logout endpoint whitelisted. -/
def cfgMain : Config := ⟨3, [401], [⟨"post", "/szl-center-auth/logout"⟩]⟩

/-- `maxRetries = 0` configuration, for the C1 scenario. -/
def cfgZeroRetry : Config := ⟨0, [401], []⟩

def opA : OpenParams := ⟨"GET", "/api/a", some true, none, none⟩

def opB : OpenParams := ⟨"POST", "/api/b", some true, none, none⟩

def opLogout : OpenParams := ⟨"POST", "/szl-center-auth/logout", some true, none, none⟩

/-- A completed JSON response whose body the parser reads as `code: 401`. -/
def respAuth : XhrResponse := ⟨some "application/json; charset=utf-8", "body401"⟩

/-- A JSON-typed response whose body fails to parse. -/
def respBad : XhrResponse := ⟨some "application/json", "notjson"⟩

/-- A non-JSON response. -/
def respPlain : XhrResponse := ⟨some "text/html", "hello"⟩

/-- A fresh request context: `retryCount` still `undefined`. -/
def ctxFresh : RequestCtx :=
  ⟨⟨"GET", "/api/x", some true, none, none⟩, none, [("x-token-id", "old")]⟩

/-- The C4 round-trip context: stored header `Authorization: Bearer old`. -/
def ctxAuthHdr : RequestCtx :=
  ⟨⟨"GET", "/api/x", some true, none, none⟩, none, [("Authorization", "Bearer old")]⟩

/-- Environment for the C4 round-trip: token header `Authorization`,
current token `"new"`. -/
def envNew : Env := ⟨fun _ => none, some "new", some "Authorization"⟩

/-- Whitelist entry stored with an upper-case method, for C7. -/
def cfgUpperPost : Config := ⟨3, [401], [⟨"POST", "/x"⟩]⟩

/-- An `open` call whose async flag was omitted, for C4. -/
def opNoAsync : OpenParams := ⟨"GET", "/api/x", none, none, none⟩

/-- Ready-state events 2, 3, 4 of an ordinary successful request. -/
def evsC9 : List RscEvent := [⟨2, 200, "u"⟩, ⟨3, 200, "u"⟩, ⟨4, 200, "u"⟩]

/-- A context with no recorded headers. -/
def ctxEmpty : RequestCtx := ⟨⟨"GET", "/u", some true, none, none⟩, none, []⟩

/-! ### Helper lemmas -/

/-- The actions of the coordinator step: `onConfirm` is invoked exactly when
no login was active. -/
theorem handleUnauthorizedStep_acts (s : InterceptState) :
    (handleUnauthorizedStep s).2 =
      if s.loginActive then [] else [Action.invokeOnConfirm] := by
  cases h : s.loginActive <;> simp [handleUnauthorizedStep, h]

/-- The state after the coordinator step: the login is active and one more
waiter is enqueued. -/
theorem handleUnauthorizedStep_state (s : InterceptState) :
    (handleUnauthorizedStep s).1 = ⟨true, s.waiters + 1⟩ := by
  cases h : s.loginActive <;> simp [handleUnauthorizedStep, h]

/-- An auth-failure classification implies the request is not whitelisted. -/
theorem classify_authFailure_not_white (env : Env) (cfg : Config)
    (op : OpenParams) (r : XhrResponse)
    (h : classify env cfg op r = Outcome.authFailure) :
    isInWhiteList cfg op.method op.url = false := by
  by_contra hw
  have hw' : isInWhiteList cfg op.method op.url = true := by
    cases hwl : isInWhiteList cfg op.method op.url
    · exact absurd hwl hw
    · rfl
  simp [classify, hw'] at h

/-- On the auth-failure path `handleInterceptResponse` is exactly the
coordinator step (no whitelist reset happens, no callback is invoked). -/
theorem handleInterceptResponse_auth (env : Env) (cfg : Config)
    (op : OpenParams) (r : XhrResponse) (s : InterceptState)
    (h : classify env cfg op r = Outcome.authFailure) :
    handleInterceptResponse env cfg op r s = handleUnauthorizedStep s := by
  have hw := classify_authFailure_not_white env cfg op r h
  simp [handleInterceptResponse, hw, h]

/-- On any non-auth-failure path `handleInterceptResponse` invokes the
caller's callback with the original event, exactly once. -/
theorem handleInterceptResponse_nonauth (env : Env) (cfg : Config)
    (op : OpenParams) (r : XhrResponse) (s : InterceptState)
    (h : classify env cfg op r ≠ Outcome.authFailure) :
    (handleInterceptResponse env cfg op r s).2 = [Action.callbackOriginal] := by
  unfold handleInterceptResponse
  cases hc : classify env cfg op r
  · simp
  · exact absurd hc h
  · simp

/-- The header loop leaves `retryCount` untouched. -/
theorem applyHeaders_retry (env : Env) (hs : List (String × String))
    (ctx : RequestCtx) :
    (applyHeaders env ctx hs).1.retryCount = ctx.retryCount := by
  induction hs generalizing ctx with
  | nil => rfl
  | cons kv rest ih => simp [applyHeaders, setRequestHeaderWrapper, ih]

/-- The native calls the header loop emits: each stored header in order,
only the token-named header's value substituted with the fresh token. -/
theorem applyHeaders_acts (env : Env) (hs : List (String × String))
    (ctx : RequestCtx) :
    (applyHeaders env ctx hs).2 =
      hs.map (fun kv => Action.setHeaderNative kv.1
        (if kv.1 == env.tokenName then env.tokenVal else kv.2)) := by
  induction hs generalizing ctx with
  | nil => rfl
  | cons kv rest ih =>
      obtain ⟨k, v⟩ := kv
      by_cases hk : k = env.tokenName <;>
        simp [applyHeaders, setRequestHeaderWrapper, beq_iff_eq, hk, ih]

/-- The replay sends iff the JavaScript comparison
`retryCount < runtimeConfig.retryCount` is false. -/
theorem replayContinuation_sent (env : Env) (cfg : Config) (ctx : RequestCtx) :
    (replayContinuation env cfg ctx).2.2 =
      !(jsLtRetry ctx.retryCount cfg.retryCount) := by
  unfold replayContinuation
  simp only [applyHeaders_retry, openWrapper]
  cases h : jsLtRetry ctx.retryCount cfg.retryCount <;> simp [h]

/-- The full native-call trace of one waiter continuation. -/
theorem replayContinuation_acts (env : Env) (cfg : Config) (ctx : RequestCtx) :
    (replayContinuation env cfg ctx).2.1 =
      Action.openNative ctx.openParams.method ctx.openParams.url
          (some (jsBool ctx.openParams.async)) ctx.openParams.username
          ctx.openParams.password
        :: (ctx.headers.map (fun kv => Action.setHeaderNative kv.1
              (if kv.1 == env.tokenName then env.tokenVal else kv.2))
            ++ (if (replayContinuation env cfg ctx).2.2 then [Action.sendNative]
                else [])) := by
  rw [replayContinuation_sent]
  unfold replayContinuation
  cases h : jsLtRetry ctx.retryCount cfg.retryCount <;>
    simp [openWrapper, applyHeaders_retry, applyHeaders_acts, replayOpenArgs, h]

/-- A waiter continuation never invokes the caller's callback. -/
theorem replayActs_no_callbacks (env : Env) (cfg : Config) (ctx : RequestCtx) :
    (replayActs env cfg ctx).count Action.callbackOriginal = 0
    ∧ (replayActs env cfg ctx).count Action.callbackReplay = 0 := by
  unfold replayActs
  rw [replayContinuation_acts]
  constructor <;>
    · rw [List.count_eq_zero]
      intro hmem
      simp only [List.mem_cons, List.mem_append, List.mem_map] at hmem
      rcases hmem with h | (⟨kv, _, h⟩ | h) <;> first
        | exact Action.noConfusion h
        | (cases hs : (replayContinuation env cfg ctx).2.2 <;> simp [hs] at h)

/-- The rebound handler never delivers the original event; it delivers the
caller's callback once for an `onloadend` request and once per ready-state
transition of the replay for an `onreadystatechange` request. -/
theorem replayCompletionActs_counts (funName : FunName) (evs : List RscEvent) :
    (replayCompletionActs funName evs).count Action.callbackOriginal = 0
    ∧ (replayCompletionActs funName evs).count Action.callbackReplay
        = (match funName with
           | FunName.onloadend => 1
           | FunName.onreadystatechange => evs.length) := by
  cases funName with
  | onloadend => exact ⟨rfl, rfl⟩
  | onreadystatechange =>
      induction evs with
      | nil => exact ⟨rfl, rfl⟩
      | cons e rest ih =>
          have hstep : replayCompletionActs FunName.onreadystatechange (e :: rest)
              = [Action.callbackReplay, Action.resolveWaiterTrue]
                ++ replayCompletionActs FunName.onreadystatechange rest := by
            simp [replayCompletionActs]
          rw [hstep]
          simp only [List.count_append]
          refine ⟨by rw [ih.1]; rfl, ?_⟩
          rw [ih.2]
          simp [List.length_cons]
          omega

/-- While a login is active, any sequence of further auth-failing
completions only enqueues waiters: no action at all is emitted (in
particular `onConfirm` is not invoked again) and the login stays active. -/
theorem runResponses_loginActive (env : Env) (cfg : Config)
    (l : List (OpenParams × XhrResponse)) :
    ∀ s : InterceptState, s.loginActive = true →
      (∀ pr ∈ l, classify env cfg pr.1 pr.2 = Outcome.authFailure) →
      runResponses env cfg s l = (⟨true, s.waiters + l.length⟩, []) := by
  induction l with
  | nil =>
      intro s hs _
      cases s with
      | mk la w => simp_all [runResponses]
  | cons pr rest ih =>
      intro s hs hall
      obtain ⟨op, r⟩ := pr
      have hhead := hall (op, r) (List.mem_cons_self _ _)
      have hstep : handleInterceptResponse env cfg op r s
          = (⟨true, s.waiters + 1⟩, []) := by
        rw [handleInterceptResponse_auth env cfg op r s hhead]
        simp [handleUnauthorizedStep, hs]
      have htail := ih ⟨true, s.waiters + 1⟩ rfl
        (fun pr hpr => hall pr (List.mem_cons_of_mem _ hpr))
      simp [runResponses, hstep, htail]
      omega

/-! ### Claim theorems -/

/-- Claim C1 (code bug): at the failing input — `maxRetries = 0` and a fresh
request whose `retryCount` is still `undefined` — the replay gate
(src/index.ts lines 125-131) resends: the continuation's `sent` flag is
true, the trace contains exactly one native `send`, and `retryCount`
becomes 1. The claim (and the code's own comment on line 125, "if the
maximum retry count is not exceeded, resend") requires that a request
whose `retryCount` has reached `maxRetries = 0` is never resent; the
code's comparison is inverted, so it resends exactly when the limit is
reached or exceeded. -/
theorem C1_retry_gate_resends_at_limit :
    (replayContinuation envAuth cfgZeroRetry ctxFresh).2.2 = true
    ∧ (replayContinuation envAuth cfgZeroRetry ctxFresh).1.retryCount = some 1
    ∧ (replayContinuation envAuth cfgZeroRetry ctxFresh).2.1.count
        Action.sendNative = 1
    ∧ (replayContinuation envAuth cfgMain
        ⟨ctxFresh.openParams, some 1, ctxFresh.headers⟩).2.1.count
        Action.sendNative = 0 := by
  decide

/-- Claim C7 counterexample: with the whitelist entry stored as
`{method: "POST", url: "/x"}`, the request `("post", "/x")` matches
case-insensitively (the spec's wording), yet `isInWhiteList` returns
false, because the source lowercases only the request's method and
compares it verbatim against the stored entry. -/
theorem C7_whitelist_counterexample :
    isInWhiteList cfgUpperPost "post" "/x" = false
    ∧ specWhitelistMatch cfgUpperPost "post" "/x" = true := by decide

/-- Claim C7 amended: `isInWhiteList` returns true iff some whitelist entry's
stored method equals the lowercased request method (the entry's own method
is not lowercased, so matching is case-insensitive in the request's method
only for entries stored in lowercase) and the entry's url equals the
request url exactly. -/
theorem C7_whitelist_characterization (cfg : Config) (method url : String) :
    isInWhiteList cfg method url = true ↔
      ∃ item ∈ cfg.whiteList, item.method = jsToLower method ∧ item.url = url := by
  simp [isInWhiteList, List.any_eq_true, Bool.and_eq_true, beq_iff_eq]

/-- Claim C7 witness: the characterization evaluated on a lowercase-stored
entry and an uppercase request method. -/
theorem C7_whitelist_characterization_witness :
    isInWhiteList cfgMain "POST" "/szl-center-auth/logout" = true :=
  (C7_whitelist_characterization cfgMain "POST" "/szl-center-auth/logout").mpr
    ⟨⟨"post", "/szl-center-auth/logout"⟩, by decide, by decide, rfl⟩

/-- Claim C8: when the reauthentication capability's future rejects
(src/index.ts lines 94-97), the coordinator clears the active login and
empties the waiter list, and — because the login promise is resolved only
by the success handler — no waiter continuation runs: no request is
resent, no waiter future is resolved to success, and no caller callback
is ever invoked, whatever the set of pending waiters. -/
theorem C8_login_failure_abandons_waiters (env : Env) (cfg : Config)
    (waiterCtxs : List RequestCtx) :
    (settleLogin env cfg LoginOutcome.failure waiterCtxs).1 = ⟨false, 0⟩
    ∧ (settleLogin env cfg LoginOutcome.failure waiterCtxs).2.count
        Action.sendNative = 0
    ∧ (settleLogin env cfg LoginOutcome.failure waiterCtxs).2.count
        Action.resolveWaiterTrue = 0
    ∧ (settleLogin env cfg LoginOutcome.failure waiterCtxs).2.count
        Action.callbackOriginal
      + (settleLogin env cfg LoginOutcome.failure waiterCtxs).2.count
        Action.callbackReplay = 0 :=
  ⟨rfl, rfl, rfl, rfl⟩

/-- Claim C10: a `send` issued with neither an `onreadystatechange` nor an
`onloadend` handler assigned installs no intercepting wrapper
(src/index.ts lines 239, 260), so the interception handler never runs for
that request: the shared state is untouched and no action — in particular
no reauthentication and no replay — occurs, whatever the response events
(even an auth-coded, non-whitelisted completion). -/
theorem C10_no_handler_no_interception (env : Env) (cfg : Config)
    (op : OpenParams) (r : XhrResponse) (evs : List RscEvent) (le : Bool)
    (s : InterceptState) :
    interceptInvocations false false evs le = 0
    ∧ requestEffect env cfg op r false false evs le s = (s, []) := by
  constructor
  · simp [interceptInvocations]
  · simp [requestEffect, interceptInvocations, runInterceptN]

/-- Claim C2: for any nonempty collection of completions that classify as
auth failures (JSON body with an intercepted code, not whitelisted),
processed from the idle state — the first starts the login, every later
one arrives while it is outstanding — `onConfirm` is invoked exactly
once, the single login stays active, and every request only adds one
waiter (single-flight). -/
theorem C2_single_flight (env : Env) (cfg : Config)
    (l : List (OpenParams × XhrResponse)) (hne : l ≠ [])
    (hall : ∀ pr ∈ l, classify env cfg pr.1 pr.2 = Outcome.authFailure) :
    (runResponses env cfg ⟨false, 0⟩ l).2.count Action.invokeOnConfirm = 1
    ∧ (runResponses env cfg ⟨false, 0⟩ l).1 = ⟨true, l.length⟩ := by
  match l, hne with
  | (op, r) :: rest, _ =>
    have hhead := hall (op, r) (List.mem_cons_self _ _)
    have hrest : ∀ pr ∈ rest, classify env cfg pr.1 pr.2 = Outcome.authFailure :=
      fun pr hpr => hall pr (List.mem_cons_of_mem _ hpr)
    have hstep : handleInterceptResponse env cfg op r ⟨false, 0⟩
        = (⟨true, 1⟩, [Action.invokeOnConfirm]) := by
      rw [handleInterceptResponse_auth env cfg op r ⟨false, 0⟩ hhead]
      rfl
    have htail := runResponses_loginActive env cfg rest ⟨true, 1⟩ rfl hrest
    simp [runResponses, hstep, htail]
    omega

/-- Claim C2 witness: two concurrent 401 completions from the idle state
invoke `onConfirm` once and leave one active login with two waiters. -/
theorem C2_single_flight_witness :
    (runResponses envAuth cfgMain ⟨false, 0⟩
        [(opA, respAuth), (opB, respAuth)]).2.count Action.invokeOnConfirm = 1
    ∧ (runResponses envAuth cfgMain ⟨false, 0⟩
        [(opA, respAuth), (opB, respAuth)]).1 = ⟨true, 2⟩ :=
  C2_single_flight envAuth cfgMain [(opA, respAuth), (opB, respAuth)]
    (by decide) (by decide)

/-- Claim C5: for a whitelisted request the classification step, whatever
the response (even a JSON body with an intercepted code), resets the
shared coordinator state — active login cleared, waiter list emptied —
and performs exactly one action: the original callback with the original
event. In particular `onConfirm` is never invoked on its account. -/
theorem C5_whitelist_bypass (env : Env) (cfg : Config) (op : OpenParams)
    (r : XhrResponse) (s : InterceptState)
    (h : isInWhiteList cfg op.method op.url = true) :
    handleInterceptResponse env cfg op r s
      = (⟨false, 0⟩, [Action.callbackOriginal]) := by
  simp [handleInterceptResponse, classify, h]

/-- Claim C5 witness: the whitelisted logout request completing with a 401
JSON body, while a login with two waiters is active. -/
theorem C5_whitelist_bypass_witness :
    handleInterceptResponse envAuth cfgMain opLogout respAuth ⟨true, 2⟩
        = (⟨false, 0⟩, [Action.callbackOriginal])
    ∧ codeIntercepted cfgMain.interceptStatusCodes
        (getField [("code", JsVal.num 401)] "code") = true :=
  ⟨C5_whitelist_bypass envAuth cfgMain opLogout respAuth ⟨true, 2⟩ (by decide),
   by decide⟩

/-- Claim C6: a completed response is classified as an auth failure iff the
content-type's text before the first `;` is `application/json`, the
request is not whitelisted, the body parses, and the parsed body's `code`
coerced to a number is a member of the intercept codes; and a body whose
parse throws is swallowed — never an auth failure, the handler just
invokes the original callback (pass-through). -/
theorem C6_classification_characterization (env : Env) (cfg : Config)
    (op : OpenParams) (r : XhrResponse) (s : InterceptState) :
    (classify env cfg op r = Outcome.authFailure ↔
      isJsonResponse r = true
      ∧ isInWhiteList cfg op.method op.url = false
      ∧ ∃ body, env.parseJson r.responseText = some body
          ∧ codeIntercepted cfg.interceptStatusCodes (getField body "code") = true)
    ∧ (env.parseJson r.responseText = none →
        classify env cfg op r ≠ Outcome.authFailure
        ∧ (handleInterceptResponse env cfg op r s).2 = [Action.callbackOriginal]) := by
  have hiff : classify env cfg op r = Outcome.authFailure ↔
      isJsonResponse r = true
      ∧ isInWhiteList cfg op.method op.url = false
      ∧ ∃ body, env.parseJson r.responseText = some body
          ∧ codeIntercepted cfg.interceptStatusCodes (getField body "code") = true := by
    unfold classify
    cases hw : isInWhiteList cfg op.method op.url <;>
      cases hj : isJsonResponse r <;> simp [hw, hj]
    cases hp : env.parseJson r.responseText with
    | none => simp
    | some body =>
        cases hcode : codeIntercepted cfg.interceptStatusCodes (getField body "code") <;>
          simp [hcode]
  refine ⟨hiff, fun hp => ?_⟩
  have hne : classify env cfg op r ≠ Outcome.authFailure := by
    intro heq
    obtain ⟨_, _, body, hpb, _⟩ := hiff.mp heq
    rw [hp] at hpb
    exact Option.noConfusion hpb
  exact ⟨hne, handleInterceptResponse_nonauth env cfg op r s hne⟩

/-- Claim C6 witness: a 401 JSON completion classifies as an auth failure
(via the characterization), and a JSON-typed body that fails to parse is
treated as pass-through, the handler invoking the original callback. -/
theorem C6_classification_characterization_witness :
    classify envAuth cfgMain opA respAuth = Outcome.authFailure
    ∧ (handleInterceptResponse envAuth cfgMain opA respBad ⟨false, 0⟩).2
        = [Action.callbackOriginal] :=
  ⟨(C6_classification_characterization envAuth cfgMain opA respAuth ⟨false, 0⟩).1.mpr
     ⟨by decide, by decide, [("code", JsVal.num 401)], by decide, by decide⟩,
   ((C6_classification_characterization envAuth cfgMain opA respBad ⟨false, 0⟩).2
     (by decide)).2⟩

/-- Claim C3 counterexample: an `onreadystatechange` request fails with a
401, the login succeeds and the replay is sent; the replayed request fires
ready states 2, 3 and 4, and the rebound handler (src/index.ts
lines 134-137) has no readyState filter, so the caller's callback is
invoked three times — with non-completion events among them — refuting
"invoked exactly once in total ... only with the replay's completion
event". -/
theorem C3_multiple_callbacks_counterexample :
    (lifecycleActions envAuth cfgMain opA respAuth ctxFresh ⟨false, 0⟩
        LoginOutcome.success FunName.onreadystatechange evsC9).count
      Action.callbackOriginal
    + (lifecycleActions envAuth cfgMain opA respAuth ctxFresh ⟨false, 0⟩
        LoginOutcome.success FunName.onreadystatechange evsC9).count
      Action.callbackReplay = 3 := by
  decide

/-- Claim C3 amended: on a bypass or pass-through classification the
caller's callback is invoked with the original event, exactly once,
synchronously within the classification step; on the auth-failure path it
is never invoked with the original event (so never with both the original
event and replay events), and a failed login delivers no callback at all;
after a successful login with a sent replay, an `onloadend` request's
callback is invoked exactly once, with the replay's completion event,
while an `onreadystatechange` request's callback is invoked once per
ready-state transition of the replayed request — possibly several times,
with non-completion events — because the rebound handler has no
readyState filter. -/
theorem C3_callback_dispatch (env : Env) (cfg : Config) (op : OpenParams)
    (r : XhrResponse) (ctx : RequestCtx) (s : InterceptState) (o : LoginOutcome)
    (funName : FunName) (replayEvents : List RscEvent) :
    (classify env cfg op r ≠ Outcome.authFailure →
        lifecycleActions env cfg op r ctx s o funName replayEvents
          = [Action.callbackOriginal])
    ∧ (classify env cfg op r = Outcome.authFailure →
        (lifecycleActions env cfg op r ctx s o funName replayEvents).count
          Action.callbackOriginal = 0)
    ∧ (classify env cfg op r = Outcome.authFailure → o = LoginOutcome.failure →
        (lifecycleActions env cfg op r ctx s o funName replayEvents).count
          Action.callbackOriginal
        + (lifecycleActions env cfg op r ctx s o funName replayEvents).count
          Action.callbackReplay = 0)
    ∧ (classify env cfg op r = Outcome.authFailure → o = LoginOutcome.success →
        (replayContinuation env cfg ctx).2.2 = true →
        (lifecycleActions env cfg op r ctx s o funName replayEvents).count
          Action.callbackReplay
          = (match funName with
             | FunName.onloadend => 1
             | FunName.onreadystatechange => replayEvents.length))
    ∧ (classify env cfg op r = Outcome.authFailure → o = LoginOutcome.success →
        (replayContinuation env cfg ctx).2.2 = false →
        (lifecycleActions env cfg op r ctx s o funName replayEvents).count
          Action.callbackOriginal
        + (lifecycleActions env cfg op r ctx s o funName replayEvents).count
          Action.callbackReplay = 0) := by
  by_cases hc : classify env cfg op r = Outcome.authFailure
  · have hstep := handleInterceptResponse_auth env cfg op r s hc
    have h0 : (handleUnauthorizedStep s).2.count Action.callbackOriginal = 0
        ∧ (handleUnauthorizedStep s).2.count Action.callbackReplay = 0 := by
      rw [handleUnauthorizedStep_acts]
      cases s.loginActive <;> simp
    cases o with
    | failure =>
        have hl : lifecycleActions env cfg op r ctx s LoginOutcome.failure
              funName replayEvents
            = (handleUnauthorizedStep s).2 := by
          unfold lifecycleActions
          rw [hc, hstep]
        refine ⟨fun h => absurd hc h, fun _ => by rw [hl]; exact h0.1,
          fun _ _ => by rw [hl, h0.1, h0.2],
          fun _ ho => LoginOutcome.noConfusion ho,
          fun _ ho => LoginOutcome.noConfusion ho⟩
    | success =>
        have hr := replayActs_no_callbacks env cfg ctx
        have hcc := replayCompletionActs_counts funName replayEvents
        have hl : lifecycleActions env cfg op r ctx s LoginOutcome.success
              funName replayEvents
            = ((handleUnauthorizedStep s).2 ++ replayActs env cfg ctx)
              ++ (if (replayContinuation env cfg ctx).2.2
                  then replayCompletionActs funName replayEvents else []) := by
          unfold lifecycleActions
          rw [hc, hstep]
          rfl
        refine ⟨fun h => absurd hc h, fun _ => ?_,
          fun _ ho => LoginOutcome.noConfusion ho,
          fun _ _ hsent => ?_, fun _ _ hsent => ?_⟩
        · rw [hl]
          simp only [List.count_append, h0.1, hr.1]
          cases hs : (replayContinuation env cfg ctx).2.2 <;> simp [hcc.1]
        · rw [hl]
          simp only [List.count_append, h0.2, hr.2, hsent, if_true]
          rw [hcc.2]
          cases funName <;> simp
        · rw [hl]
          simp only [List.count_append, h0.1, h0.2, hr.1, hr.2, hsent]
          simp
  · have hl := handleInterceptResponse_nonauth env cfg op r s hc
    have hlife : lifecycleActions env cfg op r ctx s o funName replayEvents
        = [Action.callbackOriginal] := by
      unfold lifecycleActions
      cases hcl : classify env cfg op r
      · exact hl
      · exact absurd hcl hc
      · exact hl
    exact ⟨fun _ => hlife, fun h => absurd h hc, fun h _ => absurd h hc,
      fun h _ _ => absurd h hc, fun h _ _ => absurd h hc⟩

/-- Claim C3 witness: a pass-through completion yields exactly the original
callback; an auth-failing `onloadend` completion with a successful login
and sent replay yields exactly one replay callback; the same completion on
an `onreadystatechange` request whose replay fires ready states 2, 3, 4
yields three replay callbacks and never the original event. -/
theorem C3_callback_dispatch_witness :
    lifecycleActions envAuth cfgMain opA respPlain ctxFresh ⟨false, 0⟩
        LoginOutcome.success FunName.onloadend [] = [Action.callbackOriginal]
    ∧ (lifecycleActions envAuth cfgMain opA respAuth ctxFresh ⟨false, 0⟩
        LoginOutcome.success FunName.onloadend []).count Action.callbackReplay = 1
    ∧ (lifecycleActions envAuth cfgMain opA respAuth ctxFresh ⟨false, 0⟩
        LoginOutcome.success FunName.onreadystatechange evsC9).count
        Action.callbackReplay = 3
    ∧ (lifecycleActions envAuth cfgMain opA respAuth ctxFresh ⟨false, 0⟩
        LoginOutcome.success FunName.onreadystatechange evsC9).count
        Action.callbackOriginal = 0 :=
  ⟨(C3_callback_dispatch envAuth cfgMain opA respPlain ctxFresh ⟨false, 0⟩
      LoginOutcome.success FunName.onloadend []).1 (by decide),
   (C3_callback_dispatch envAuth cfgMain opA respAuth ctxFresh ⟨false, 0⟩
      LoginOutcome.success FunName.onloadend []).2.2.2.1 (by decide) rfl
      (by decide),
   (C3_callback_dispatch envAuth cfgMain opA respAuth ctxFresh ⟨false, 0⟩
      LoginOutcome.success FunName.onreadystatechange evsC9).2.2.2.1 (by decide)
      rfl (by decide),
   (C3_callback_dispatch envAuth cfgMain opA respAuth ctxFresh ⟨false, 0⟩
      LoginOutcome.success FunName.onreadystatechange evsC9).2.1 (by decide)⟩

/-- Claim C4: the replay reconstructs a request identical in method, URL
and effective async mode to the original — the patched `open`
(src/index.ts line 214) passes the caller's async argument through
explicitly, so the native primitive coerces an omitted/`undefined` flag
to `false` exactly as the replay's `!!params.async` does — and the
continuation's trace is that `open` call followed by one native
header-set per stored header, in order, with only the token-named
header's value replaced by the token read fresh at replay time, followed
by the send when the gate passes. -/
theorem C4_replay_reconstruction (env : Env) (cfg : Config) (ctx : RequestCtx) :
    (replayOpenArgs ctx.openParams).method = ctx.openParams.method
    ∧ (replayOpenArgs ctx.openParams).url = ctx.openParams.url
    ∧ effectiveAsync (replayOpenArgs ctx.openParams).async
        = effectiveAsync ctx.openParams.async
    ∧ (replayContinuation env cfg ctx).2.1 =
        Action.openNative ctx.openParams.method ctx.openParams.url
            (some (jsBool ctx.openParams.async)) ctx.openParams.username
            ctx.openParams.password
          :: (ctx.headers.map (fun kv => Action.setHeaderNative kv.1
                (if kv.1 == env.tokenName then env.tokenVal else kv.2))
              ++ (if (replayContinuation env cfg ctx).2.2 then [Action.sendNative]
                  else [])) := by
  refine ⟨rfl, rfl, ?_, replayContinuation_acts env cfg ctx⟩
  cases h : ctx.openParams.async <;>
    simp [replayOpenArgs, effectiveAsync, jsBool, h]

/-- Claim C4 witness: the round-trip instance — replaying
`(GET, "/api/x", true, null, null)` with stored header
`Authorization: Bearer old`, token header name `Authorization`, current
token `"new"` — opens with the same method, url and async mode and emits
the single header `Authorization: "new"`; and a request whose async flag
was omitted also keeps its effective async mode (`false` both times). -/
theorem C4_replay_reconstruction_witness :
    effectiveAsync (replayOpenArgs ctxAuthHdr.openParams).async = true
    ∧ effectiveAsync (replayOpenArgs opNoAsync).async = effectiveAsync opNoAsync.async
    ∧ (replayContinuation envNew cfgMain ctxAuthHdr).2.1 =
        [Action.openNative "GET" "/api/x" (some true) none none,
         Action.setHeaderNative "Authorization" "new", Action.sendNative] := by
  have h := C4_replay_reconstruction envNew cfgMain ctxAuthHdr
  have h2 := C4_replay_reconstruction envNew cfgMain ⟨opNoAsync, none, []⟩
  refine ⟨?_, ?_, ?_⟩
  · rw [h.2.2.1]
    decide
  · exact h2.2.2.1
  · rw [h.2.2.2]
    decide

/-- Claim C9 counterexample: for the ready-state sequence 2, 3, 4 of an
ordinary successful request, the caller's handler observes [2, 3, 4]
without interception but only the (deferred) readyState-4 invocation with
it; and the `setRequestHeader` wrapper forwards the token-named header
with the stored token instead of the caller's value. The wrappers are
therefore not observationally equivalent to the originals on
non-intercepted behavior. -/
theorem C9_observation_counterexample :
    callerObsWrapped evsC9 ≠ callerObsOriginal evsC9
    ∧ (setRequestHeaderWrapper ⟨fun _ => none, some "tok", none⟩ ctxEmpty
        "x-token-id" "abc").2 ≠ Action.setHeaderNative "x-token-id" "abc" := by
  decide

/-- Claim C9 amended: the `open` wrapper delegates the caller's exact
arguments; the `setRequestHeader` wrapper delegates the name and value
except the token-named header, whose value is replaced with the current
token; the `send` wrapper delegates the body arguments and return value,
but an assigned `onreadystatechange` handler is replaced so that the
caller's handler can only run — deferred to a later task — at the
readyState-4 events not swallowed by the status-0 flag; intermediate
readyState transitions before 4 are never observed. -/
theorem C9_wrapper_equivalence_amended (env : Env) (ctx : RequestCtx)
    (method url : String) (a : Option Bool) (user pwd : Option String)
    (name value : String) (evs : List RscEvent) :
    (openWrapper ctx method url a user pwd).2
        = Action.openNative method url a user pwd
    ∧ (setRequestHeaderWrapper env ctx name value).2
        = Action.setHeaderNative name
            (if name == env.tokenName then env.tokenVal else value)
    ∧ callerObsWrapped evs
        = (evs.filter (fun e => e.readyState == 4 && !(rscFlag e))).map
            (fun e => e.readyState)
    ∧ (∀ x ∈ callerObsWrapped evs, x = 4) := by
  refine ⟨rfl, rfl, rfl, fun x hx => ?_⟩
  simp only [callerObsWrapped, List.mem_map, List.mem_filter] at hx
  obtain ⟨e, ⟨_, he⟩, rfl⟩ := hx
  have h4 : (e.readyState == 4) = true := by
    cases h : (e.readyState == 4)
    · rw [rscWrapperForwards, h] at he
      simp at he
    · rfl
  exact eq_of_beq h4

/-- Claim C9 witness: on the concrete event sequence 2, 3, 4 the wrapped
handler's observations are exactly the single readyState-4 event. -/
theorem C9_wrapper_equivalence_amended_witness :
    callerObsWrapped evsC9 = [4] ∧ (4 ∈ callerObsWrapped evsC9 → (4 : Nat) = 4) := by
  have h := C9_wrapper_equivalence_amended ⟨fun _ => none, some "tok", none⟩
    ctxEmpty "GET" "/u" none none none "a" "b" evsC9
  exact ⟨by rw [h.2.2.1]; decide, fun hx => h.2.2.2 4 hx⟩

end Intercept
